import Mathlib

/-!
Shallow embedding of the PackageDev repository sources:
  * `src/Lib/sublime_lib/view/output_view.py` — the `OutputPanel` wrapper
    over a host window's panel primitives;
  * `src/scope_data/data.py` — the static scope-taxonomy string `DATA`.

The host editor (window / view objects) is an external collaborator; it is
modelled as explicit state: a store of views (settings + buffer), a map from
panel names to view ids, a log of `get_output_panel` fetches and a log of
`run_command` dispatches.
-/

/-- A host view: a key/value settings store plus a text buffer.
`settings().set(k, v)` prepends; `get` takes the most recent binding. -/
structure View where
  settings : List (String × String)
  buffer : String
deriving Repr, DecidableEq

def View.new : View := ⟨[], ""⟩

/-- Host `view.settings().set(key, val)`. -/
def View.setSetting (v : View) (key val : String) : View :=
  { v with settings := (key, val) :: v.settings }

/-- Host `view.settings().get(key)`: the most recently set value. -/
def View.getSetting (v : View) (key : String) : Option String :=
  (v.settings.find? (fun p => p.1 == key)).map Prod.snd

/-- Modelled from the spec: `append` from `sublime_lib.view._view` is not under
`src/` (only `output_view.py` imports it); the spec says `write(text)`
"appends text to the panel's underlying buffer without inserting a trailing
newline". -/
def View.append (v : View) (text : String) : View :=
  { v with buffer := v.buffer ++ text }

/-- Modelled from the spec: `clear` from `sublime_lib.view._view` is not under
`src/`; the spec says `clear()` "erases all panel content". -/
def View.clear (v : View) : View :=
  { v with buffer := "" }

/-- The host window: views are addressed by id (`views` is total so that a
settings write on a held view reference always lands, as on a Python object);
`panels` maps output-panel names to view ids; `fetchLog` records every
`get_output_panel` call and `commandLog` every `run_command` dispatch. -/
structure Window where
  views : Nat → View
  panels : List (String × Nat)
  nextId : Nat
  fetchLog : List String
  commandLog : List (String × String)

/-- Host `window.get_output_panel(name)`: idempotent get-or-create.
Returns the panel's view id and the updated window; the fetch is logged. -/
def Window.get_output_panel (w : Window) (name : String) : Nat × Window :=
  let w1 := { w with fetchLog := w.fetchLog ++ [name] }
  match w1.panels.find? (fun p => p.1 == name) with
  | some p => (p.2, w1)
  | none =>
      (w1.nextId,
       { w1 with panels := w1.panels ++ [(name, w1.nextId)],
                 nextId := w1.nextId + 1 })

/-- Apply `f` to the view with the given id. -/
def Window.updateViewAt (w : Window) (id : Nat) (f : View → View) : Window :=
  { w with views := fun i => if i = id then f (w.views i) else w.views i }

/-- Host `window.run_command(cmd, args)`: the dispatch is logged. -/
def Window.run_command (w : Window) (cmd arg : String) : Window :=
  { w with commandLog := w.commandLog ++ [(cmd, arg)] }

/-- The `OutputPanel` object's own attributes (`output_view.py`): the panel
name, the captured `self.view` reference, and the `file_regex` / `line_regex`
attributes, which are only present (`hasattr`) once assigned — modelled as
`Option`, `none` meaning the attribute was never set. -/
structure OutputPanel where
  panel_name : String
  viewId : Nat
  file_regex : Option String
  line_regex : Option String
deriving Repr, DecidableEq

/-- A panel object together with its host window. -/
structure OPState where
  window : Window
  panel : OutputPanel

/-- `OutputPanel.set_regex` (`output_view.py` lines 92-106): store each
argument if it is not `None`, push each stored attribute (if present) to the
view's settings, then unconditionally re-fetch the panel so that it is picked
up as a result buffer. -/
def OutputPanel.set_regex (s : OPState) (file_regex line_regex : Option String) :
    OPState :=
  let p := s.panel
  let p := match file_regex with
    | some r => { p with file_regex := some r }
    | none => p
  let w := match p.file_regex with
    | some r => s.window.updateViewAt p.viewId
        (fun v => v.setSetting "result_file_regex" r)
    | none => s.window
  let p := match line_regex with
    | some r => { p with line_regex := some r }
    | none => p
  let w := match p.line_regex with
    | some r => w.updateViewAt p.viewId
        (fun v => v.setSetting "result_line_regex" r)
    | none => w
  let w := (w.get_output_panel p.panel_name).2
  ⟨w, p⟩

/-- `OutputPanel.set_path` (`output_view.py` lines 83-90): set
`result_base_dir` if `path` is not `None`, then delegate to `set_regex`. -/
def OutputPanel.set_path (s : OPState) (path file_regex line_regex : Option String) :
    OPState :=
  let w := match path with
    | some pa => s.window.updateViewAt s.panel.viewId
        (fun v => v.setSetting "result_base_dir" pa)
    | none => s.window
  OutputPanel.set_regex ⟨w, s.panel⟩ file_regex line_regex

/-- `OutputPanel.__init__` (`output_view.py` lines 76-81): obtain or create
the named panel, capture its view, then delegate to `set_path`. -/
def OutputPanel.init (w : Window) (panel_name : String)
    (file_regex line_regex path : Option String) : OPState :=
  let r := w.get_output_panel panel_name
  OutputPanel.set_path ⟨r.2, ⟨panel_name, r.1, none, none⟩⟩ path file_regex line_regex

/-- `OutputPanel.write(text)`: append `text` to the panel's view buffer. -/
def OutputPanel.write (s : OPState) (text : String) : OPState :=
  { s with window := s.window.updateViewAt s.panel.viewId (fun v => v.append text) }

/-- `OutputPanel.write_line(text)`: `write(text + "\n")`. -/
def OutputPanel.write_line (s : OPState) (text : String) : OPState :=
  OutputPanel.write s (text ++ "\n")

/-- `OutputPanel.clear()`: erase the panel's view buffer. -/
def OutputPanel.clear (s : OPState) : OPState :=
  { s with window := s.window.updateViewAt s.panel.viewId View.clear }

/-- `OutputPanel.show()`: `run_command("show_panel", panel = "output.<name>")`. -/
def OutputPanel.showPanel (s : OPState) : OPState :=
  { s with window := s.window.run_command "show_panel" ("output." ++ s.panel.panel_name) }

/-- `OutputPanel.hide()`: `run_command("hide_panel", panel = "output.<name>")`. -/
def OutputPanel.hidePanel (s : OPState) : OPState :=
  { s with window := s.window.run_command "hide_panel" ("output." ++ s.panel.panel_name) }

/-- The settings value the panel's captured view currently holds for `key`. -/
def OPState.getSetting (s : OPState) (key : String) : Option String :=
  (s.window.views s.panel.viewId).getSetting key

/-- The panel's captured view buffer. -/
def OPState.buffer (s : OPState) : String :=
  (s.window.views s.panel.viewId).buffer

/-- Fold a sequence of `set_regex` calls (each call a pair of optional
`file_regex` / `line_regex` arguments) over a state. -/
def runSetRegex (s : OPState) (calls : List (Option String × Option String)) :
    OPState :=
  calls.foldl (fun t c => OutputPanel.set_regex t c.1 c.2) s

/-- The last non-`none` element of `l`, defaulting to `d`. -/
def lastSome (d : Option String) (l : List (Option String)) : Option String :=
  l.foldl (fun acc o => match o with | some v => some v | none => acc) d

/-- The `DATA` string of `src/scope_data/data.py`, transcribed line by line:
the Python triple-quoted literal starts and ends with a newline, so the
joined string is framed by empty lines. -/
def dataLines : List String := [
  "",
  "    comment",
  "        line",
  "            double-slash",
  "            double-dash",
  "            number-sign",
  "            percentage",
  "        block",
  "            documentation",
  "",
  "    constant",
  "        numeric",
  "            integer",
  "            float",
  "            hex",
  "            octal",
  "            complex",
  "        character",
  "            escape",
  "        language",
  "        other",
  "            placeholder",
  "",
  "    entity",
  "        name",
  "            class",
  "                forward-decl",
  "            struct",
  "            enum",
  "            union",
  "            trait",
  "            interface",
  "            type",
  "            function",
  "                constructor",
  "                destructor",
  "            namespace",
  "            constant",
  "            label",
  "            section",
  "            tag",
  "        other",
  "            inherited-class",
  "            attribute-name",
  "",
  "    invalid",
  "        illegal",
  "        deprecated",
  "",
  "    keyword",
  "        control",
  "            conditional",
  "            import",
  "        operator",
  "            assignment",
  "            arithmetic",
  "            bitwise",
  "            logical",
  "            word",
  "        other",
  "",
  "    markup",
  "        heading",
  "        list",
  "            numbered",
  "            unnumbered",
  "        bold",
  "        italic",
  "        underline",
  "            link",
  "        inserted",
  "        deleted",
  "        quote",
  "        raw",
  "            inline",
  "            block",
  "        other",
  "",
  "    meta",
  "        class",
  "        struct",
  "        enum",
  "        union",
  "        trait",
  "        interface",
  "        type",
  "        function",
  "            parameters",
  "            return-type",
  "        namespace",
  "        preprocessor",
  "        path",
  "        function-call",
  "        block",
  "        braces",
  "        group",
  "        parens",
  "        brackets",
  "        generic",
  "        tag",
  "        paragraph",
  "        toc-list",
  "        sequence",
  "        mapping",
  "            key",
  "            value",
  "        annotation",
  "        set",
  "",
  "    punctuation",
  "        definition",
  "            string",
  "                begin",
  "                end",
  "            comment",
  "                begin",
  "                end",
  "            keyword",
  "            generic",
  "                begin",
  "                end",
  "            placeholder",
  "                begin",
  "                end",
  "        section",
  "            block",
  "                begin",
  "                end",
  "            braces",
  "                begin",
  "                end",
  "            group",
  "                begin",
  "                end",
  "            parens",
  "                begin",
  "                end",
  "            brackets",
  "                begin",
  "                end",
  "            sequence",
  "                begin",
  "                end",
  "            mapping",
  "                begin",
  "                end",
  "            set",
  "                begin",
  "                end",
  "        separator",
  "            sequence",
  "            mapping",
  "                key-value",
  "                pair",
  "            decimal",
  "        terminator",
  "        accessor",
  "            arrow",
  "            dot",
  "            double-colon",
  "            fat-arrow",
  "            colon",
  "            backslash",
  "",
  "    storage",
  "        type",
  "        modifier",
  "",
  "    string",
  "        quoted",
  "            single",
  "            double",
  "            triple",
  "            other",
  "        unquoted",
  "        regexp",
  "        interpolated",
  "        other",
  "",
  "    support",
  "        constant",
  "        function",
  "        module",
  "        type",
  "        class",
  "        other",
  "",
  "    variable",
  "        language",
  "        parameter",
  "        function",
  "        annotation",
  "        other",
  "            constant",
  "            member",
  ""]

/-- Join character lines with newline separators. -/
def joinNl : List (List Char) → List Char
  | [] => []
  | [l] => l
  | l :: ls => l ++ '\n' :: joinNl ls

def DATA : String := String.mk (joinNl (dataLines.map String.data))

/-- Split a character list on newline characters. -/
def splitOnNewline : List Char → List (List Char)
  | [] => [[]]
  | c :: cs =>
      let r := splitOnNewline cs
      if c = '\n' then [] :: r
      else match r with
        | [] => [[c]]
        | l :: ls => (c :: l) :: ls

/-- Number of leading space characters. -/
def countLeadingSpaces : List Char → Nat
  | [] => 0
  | c :: cs => if c = ' ' then countLeadingSpaces cs + 1 else 0

/-- Remove leading and trailing spaces. -/
def trimSpaces (cs : List Char) : List Char :=
  ((cs.dropWhile (fun c => c = ' ')).reverse.dropWhile (fun c => c = ' ')).reverse

/-- Indentation depth of a line: number of leading spaces divided by 4
(the taxonomy uses four spaces per level; top-level entries sit at depth 1). -/
def indentDepth (l : List Char) : Nat :=
  countLeadingSpaces l / 4

/-- Parse the taxonomy string into `(depth, label)` pairs, skipping blank
lines; the label is the line with surrounding whitespace removed. -/
def parseScopeLines (s : String) : List (Nat × String) :=
  (splitOnNewline s.data).filterMap (fun l =>
    let t := trimSpaces l
    if t = [] then none else some (indentDepth l, String.mk t))

/-- Flatten `(depth, label)` pairs into root-to-leaf label paths: each line
replaces the stack from its depth on; a line is a leaf when the next line is
not deeper. -/
def leafStacks : List String → List (Nat × String) → List (List String)
  | _, [] => []
  | stack, (d, lab) :: rest =>
      let stack1 := stack.take (d - 1) ++ [lab]
      let isLeaf := match rest with
        | [] => true
        | (d2, _) :: _ => d2 ≤ d
      (if isLeaf then [stack1] else []) ++ leafStacks stack1 rest

/-- Join a root-to-leaf label stack into a dotted scope path. -/
def dotJoin (stack : List String) : String :=
  String.mk (List.intercalate [Char.ofNat 46] (stack.map String.data))

/-- The dot-joined root-to-leaf scope paths of the taxonomy. -/
def leafPaths : List String :=
  (leafStacks [] (parseScopeLines DATA)).map dotJoin

/-- All node labels of the taxonomy tree. -/
def scopeLabels : List String :=
  (parseScopeLines DATA).map Prod.snd

/-- A label is made only of lowercase letters and hyphens. -/
def validLabel (l : String) : Bool :=
  l.toList.all (fun c => (Char.ofNat 97 ≤ c && c ≤ Char.ofNat 122) || c = Char.ofNat 45)

/-- The expected dot-joined leaf paths, spelled out for evaluation. -/
def pathsLit : List String := [
  "comment.line.double-slash",
  "comment.line.double-dash",
  "comment.line.number-sign",
  "comment.line.percentage",
  "comment.block.documentation",
  "constant.numeric.integer",
  "constant.numeric.float",
  "constant.numeric.hex",
  "constant.numeric.octal",
  "constant.numeric.complex",
  "constant.character.escape",
  "constant.language",
  "constant.other.placeholder",
  "entity.name.class.forward-decl",
  "entity.name.struct",
  "entity.name.enum",
  "entity.name.union",
  "entity.name.trait",
  "entity.name.interface",
  "entity.name.type",
  "entity.name.function.constructor",
  "entity.name.function.destructor",
  "entity.name.namespace",
  "entity.name.constant",
  "entity.name.label",
  "entity.name.section",
  "entity.name.tag",
  "entity.other.inherited-class",
  "entity.other.attribute-name",
  "invalid.illegal",
  "invalid.deprecated",
  "keyword.control.conditional",
  "keyword.control.import",
  "keyword.operator.assignment",
  "keyword.operator.arithmetic",
  "keyword.operator.bitwise",
  "keyword.operator.logical",
  "keyword.operator.word",
  "keyword.other",
  "markup.heading",
  "markup.list.numbered",
  "markup.list.unnumbered",
  "markup.bold",
  "markup.italic",
  "markup.underline.link",
  "markup.inserted",
  "markup.deleted",
  "markup.quote",
  "markup.raw.inline",
  "markup.raw.block",
  "markup.other",
  "meta.class",
  "meta.struct",
  "meta.enum",
  "meta.union",
  "meta.trait",
  "meta.interface",
  "meta.type",
  "meta.function.parameters",
  "meta.function.return-type",
  "meta.namespace",
  "meta.preprocessor",
  "meta.path",
  "meta.function-call",
  "meta.block",
  "meta.braces",
  "meta.group",
  "meta.parens",
  "meta.brackets",
  "meta.generic",
  "meta.tag",
  "meta.paragraph",
  "meta.toc-list",
  "meta.sequence",
  "meta.mapping.key",
  "meta.mapping.value",
  "meta.annotation",
  "meta.set",
  "punctuation.definition.string.begin",
  "punctuation.definition.string.end",
  "punctuation.definition.comment.begin",
  "punctuation.definition.comment.end",
  "punctuation.definition.keyword",
  "punctuation.definition.generic.begin",
  "punctuation.definition.generic.end",
  "punctuation.definition.placeholder.begin",
  "punctuation.definition.placeholder.end",
  "punctuation.section.block.begin",
  "punctuation.section.block.end",
  "punctuation.section.braces.begin",
  "punctuation.section.braces.end",
  "punctuation.section.group.begin",
  "punctuation.section.group.end",
  "punctuation.section.parens.begin",
  "punctuation.section.parens.end",
  "punctuation.section.brackets.begin",
  "punctuation.section.brackets.end",
  "punctuation.section.sequence.begin",
  "punctuation.section.sequence.end",
  "punctuation.section.mapping.begin",
  "punctuation.section.mapping.end",
  "punctuation.section.set.begin",
  "punctuation.section.set.end",
  "punctuation.separator.sequence",
  "punctuation.separator.mapping.key-value",
  "punctuation.separator.mapping.pair",
  "punctuation.separator.decimal",
  "punctuation.terminator",
  "punctuation.accessor.arrow",
  "punctuation.accessor.dot",
  "punctuation.accessor.double-colon",
  "punctuation.accessor.fat-arrow",
  "punctuation.accessor.colon",
  "punctuation.accessor.backslash",
  "storage.type",
  "storage.modifier",
  "string.quoted.single",
  "string.quoted.double",
  "string.quoted.triple",
  "string.quoted.other",
  "string.unquoted",
  "string.regexp",
  "string.interpolated",
  "string.other",
  "support.constant",
  "support.function",
  "support.module",
  "support.type",
  "support.class",
  "support.other",
  "variable.language",
  "variable.parameter",
  "variable.function",
  "variable.annotation",
  "variable.other.constant",
  "variable.other.member"]

/-- Fold a sequence of `write` / `write_line` calls over a state: an entry
`(true, t)` is `write_line t`, an entry `(false, t)` is `write t`. -/
def runWriteOps (s : OPState) (ops : List (Bool × String)) : OPState :=
  ops.foldl (fun t o => if o.1 then OutputPanel.write_line t o.2 else OutputPanel.write t o.2) s

/-- Boolean no-duplicates check on a list of strings. -/
def nodupB : List String → Bool
  | [] => true
  | a :: as => (!as.contains a) && nodupB as

/-- A fresh host window, for concrete evaluations. -/
def sampleWindow : Window := ⟨fun _ => View.new, [], 0, [], []⟩

/-- A concrete panel state, for concrete evaluations. -/
def sampleState : OPState := OutputPanel.init sampleWindow "exec" none none none

/-- A concrete sequence of `set_regex` calls, for concrete evaluations. -/
def sampleCalls : List (Option String × Option String) :=
  [(some "fr0", none), (none, some "lr1"), (none, none)]

/-! ## Basic lemmas about the host model -/

theorem View.getSetting_set_same (v : View) (k val : String) :
    (v.setSetting k val).getSetting k = some val := by
  simp [View.getSetting, View.setSetting]

theorem View.getSetting_set_ne (v : View) (k k2 val : String) (h : k2 ≠ k) :
    (v.setSetting k val).getSetting k2 = v.getSetting k2 := by
  simp [View.getSetting, View.setSetting, List.find?_cons, Ne.symm h]

theorem View.getSetting_append (v : View) (t k : String) :
    (v.append t).getSetting k = v.getSetting k := rfl

theorem View.getSetting_clear (v : View) (k : String) :
    (v.clear).getSetting k = v.getSetting k := rfl

theorem Window.gop_views (w : Window) (n : String) :
    ((w.get_output_panel n).2).views = w.views := by
  unfold Window.get_output_panel
  cases h : w.panels.find? (fun p => p.1 == n) <;> simp [h]

theorem Window.gop_fetchLog (w : Window) (n : String) :
    ((w.get_output_panel n).2).fetchLog = w.fetchLog ++ [n] := by
  unfold Window.get_output_panel
  cases h : w.panels.find? (fun p => p.1 == n) <;> simp [h]

theorem Window.gop_commandLog (w : Window) (n : String) :
    ((w.get_output_panel n).2).commandLog = w.commandLog := by
  unfold Window.get_output_panel
  cases h : w.panels.find? (fun p => p.1 == n) <;> simp [h]

theorem Window.updateViewAt_views_same (w : Window) (id : Nat) (f : View → View) :
    ((w.updateViewAt id f).views) id = f (w.views id) := by
  simp [Window.updateViewAt]

theorem Window.updateViewAt_fetchLog (w : Window) (id : Nat) (f : View → View) :
    (w.updateViewAt id f).fetchLog = w.fetchLog := rfl

theorem Window.updateViewAt_getSetting (w : Window) (id : Nat) (f : View → View)
    (k : String) (hf : ∀ v, (f v).getSetting k = v.getSetting k) (i : Nat) :
    ((w.updateViewAt id f).views i).getSetting k = (w.views i).getSetting k := by
  simp only [Window.updateViewAt]
  by_cases h : i = id <;> simp [h, hf]

/-! ## Structural lemmas about the panel operations -/

theorem set_regex_panel_name (s : OPState) (f l : Option String) :
    (OutputPanel.set_regex s f l).panel.panel_name = s.panel.panel_name := by
  cases f <;> cases l <;> rfl

theorem set_regex_viewId (s : OPState) (f l : Option String) :
    (OutputPanel.set_regex s f l).panel.viewId = s.panel.viewId := by
  cases f <;> cases l <;> rfl

theorem set_regex_file_attr (s : OPState) (f l : Option String) :
    (OutputPanel.set_regex s f l).panel.file_regex
      = match f with | some r => some r | none => s.panel.file_regex := by
  cases f <;> cases l <;> rfl

theorem set_regex_line_attr (s : OPState) (f l : Option String) :
    (OutputPanel.set_regex s f l).panel.line_regex
      = match l with | some r => some r | none => s.panel.line_regex := by
  cases f <;> cases l <;> rfl

theorem gs_set_line_read_file (v : View) (val : String) :
    (v.setSetting "result_line_regex" val).getSetting "result_file_regex"
      = v.getSetting "result_file_regex" :=
  View.getSetting_set_ne v _ _ val (by decide)

theorem gs_set_file_read_line (v : View) (val : String) :
    (v.setSetting "result_file_regex" val).getSetting "result_line_regex"
      = v.getSetting "result_line_regex" :=
  View.getSetting_set_ne v _ _ val (by decide)

theorem gs_set_file_read_base (v : View) (val : String) :
    (v.setSetting "result_file_regex" val).getSetting "result_base_dir"
      = v.getSetting "result_base_dir" :=
  View.getSetting_set_ne v _ _ val (by decide)

theorem gs_set_line_read_base (v : View) (val : String) :
    (v.setSetting "result_line_regex" val).getSetting "result_base_dir"
      = v.getSetting "result_base_dir" :=
  View.getSetting_set_ne v _ _ val (by decide)

theorem set_regex_getSetting_file (s : OPState) (f l : Option String) :
    (OutputPanel.set_regex s f l).getSetting "result_file_regex"
      = match f with
        | some r => some r
        | none => match s.panel.file_regex with
          | some r => some r
          | none => s.getSetting "result_file_regex" := by
  cases f <;> cases l <;> cases hf : s.panel.file_regex <;> cases hl : s.panel.line_regex <;>
    simp [OutputPanel.set_regex, OPState.getSetting, hf, hl, Window.gop_views,
      Window.updateViewAt_views_same, View.getSetting_set_same,
      gs_set_line_read_file, Window.updateViewAt]

theorem set_regex_getSetting_line (s : OPState) (f l : Option String) :
    (OutputPanel.set_regex s f l).getSetting "result_line_regex"
      = match l with
        | some r => some r
        | none => match s.panel.line_regex with
          | some r => some r
          | none => s.getSetting "result_line_regex" := by
  cases f <;> cases l <;> cases hf : s.panel.file_regex <;> cases hl : s.panel.line_regex <;>
    simp [OutputPanel.set_regex, OPState.getSetting, hf, hl, Window.gop_views,
      Window.updateViewAt_views_same, View.getSetting_set_same,
      gs_set_file_read_line, Window.updateViewAt]

theorem set_regex_getSetting_base (s : OPState) (f l : Option String) :
    (OutputPanel.set_regex s f l).getSetting "result_base_dir"
      = s.getSetting "result_base_dir" := by
  cases f <;> cases l <;> cases hf : s.panel.file_regex <;> cases hl : s.panel.line_regex <;>
    simp [OutputPanel.set_regex, OPState.getSetting, hf, hl, Window.gop_views,
      gs_set_file_read_base, gs_set_line_read_base, Window.updateViewAt]

theorem set_regex_fetchLog (s : OPState) (f l : Option String) :
    (OutputPanel.set_regex s f l).window.fetchLog
      = s.window.fetchLog ++ [s.panel.panel_name] := by
  cases f <;> cases l <;> cases hf : s.panel.file_regex <;> cases hl : s.panel.line_regex <;>
    simp [OutputPanel.set_regex, hf, hl, Window.gop_fetchLog, Window.updateViewAt]

theorem set_path_panel (s : OPState) (pa f l : Option String) :
    (OutputPanel.set_path s pa f l).panel
      = (OutputPanel.set_regex s f l).panel := by
  cases pa <;> cases f <;> cases l <;> rfl

theorem set_path_fetchLog (s : OPState) (pa f l : Option String) :
    (OutputPanel.set_path s pa f l).window.fetchLog
      = s.window.fetchLog ++ [s.panel.panel_name] := by
  cases pa <;>
    simp [OutputPanel.set_path, set_regex_fetchLog, Window.updateViewAt]

theorem gs_set_base_read_file (v : View) (val : String) :
    (v.setSetting "result_base_dir" val).getSetting "result_file_regex"
      = v.getSetting "result_file_regex" :=
  View.getSetting_set_ne v _ _ val (by decide)

theorem gs_set_base_read_line (v : View) (val : String) :
    (v.setSetting "result_base_dir" val).getSetting "result_line_regex"
      = v.getSetting "result_line_regex" :=
  View.getSetting_set_ne v _ _ val (by decide)

theorem set_path_getSetting_base (s : OPState) (pa f l : Option String) :
    (OutputPanel.set_path s pa f l).getSetting "result_base_dir"
      = match pa with
        | some p => some p
        | none => s.getSetting "result_base_dir" := by
  cases pa with
  | none =>
      simp only [OutputPanel.set_path]
      rw [set_regex_getSetting_base]
  | some p =>
      simp only [OutputPanel.set_path]
      rw [set_regex_getSetting_base]
      simp [OPState.getSetting, Window.updateViewAt, View.getSetting_set_same]

theorem set_path_getSetting_file (s : OPState) (pa f l : Option String) :
    (OutputPanel.set_path s pa f l).getSetting "result_file_regex"
      = match f with
        | some r => some r
        | none => match s.panel.file_regex with
          | some r => some r
          | none => s.getSetting "result_file_regex" := by
  cases pa with
  | none =>
      simp only [OutputPanel.set_path]
      rw [set_regex_getSetting_file]
  | some p =>
      simp only [OutputPanel.set_path]
      rw [set_regex_getSetting_file]
      cases f <;> cases hf : s.panel.file_regex <;>
        simp [hf, OPState.getSetting, Window.updateViewAt, gs_set_base_read_file]

theorem set_path_getSetting_line (s : OPState) (pa f l : Option String) :
    (OutputPanel.set_path s pa f l).getSetting "result_line_regex"
      = match l with
        | some r => some r
        | none => match s.panel.line_regex with
          | some r => some r
          | none => s.getSetting "result_line_regex" := by
  cases pa with
  | none =>
      simp only [OutputPanel.set_path]
      rw [set_regex_getSetting_line]
  | some p =>
      simp only [OutputPanel.set_path]
      rw [set_regex_getSetting_line]
      cases l <;> cases hl : s.panel.line_regex <;>
        simp [hl, OPState.getSetting, Window.updateViewAt, gs_set_base_read_line]

/-- The view id the window currently associates to panel name `n`. -/
def Window.lookupPanel (w : Window) (n : String) : Option Nat :=
  (w.panels.find? (fun p => p.1 == n)).map Prod.snd

theorem Window.gop_lookup_self (w : Window) (n : String) :
    (w.get_output_panel n).2.lookupPanel n = some (w.get_output_panel n).1 := by
  unfold Window.get_output_panel Window.lookupPanel
  cases h : w.panels.find? (fun p => p.1 == n) with
  | some p => simp [h]
  | none => simp [h, List.find?_append]

theorem Window.gop_fst_of_lookup (w : Window) (n : String) (v : Nat)
    (h : w.lookupPanel n = some v) : (w.get_output_panel n).1 = v := by
  unfold Window.lookupPanel at h
  unfold Window.get_output_panel
  cases hf : w.panels.find? (fun p => p.1 == n) with
  | some p => simp [hf] at h ⊢; exact h
  | none => simp [hf] at h

theorem Window.gop_lookup_preserve (w : Window) (n m : String) (v : Nat)
    (h : w.lookupPanel n = some v) :
    (w.get_output_panel m).2.lookupPanel n = some v := by
  unfold Window.lookupPanel at h ⊢
  unfold Window.get_output_panel
  cases hf : w.panels.find? (fun p => p.1 == m) with
  | some p => simp [hf]; simp at h; exact h
  | none =>
      cases hq : w.panels.find? (fun p => p.1 == n) with
      | none => rw [hq] at h; simp at h
      | some q =>
          rw [hq] at h
          simp at h
          simp [hf, List.find?_append, hq, h]

theorem Window.updateViewAt_lookup (w : Window) (id : Nat) (f : View → View)
    (n : String) : (w.updateViewAt id f).lookupPanel n = w.lookupPanel n := rfl

theorem set_regex_lookup_preserve (s : OPState) (f l : Option String)
    (n : String) (v : Nat) (h : s.window.lookupPanel n = some v) :
    (OutputPanel.set_regex s f l).window.lookupPanel n = some v := by
  cases f <;> cases l <;> cases hf : s.panel.file_regex <;> cases hl : s.panel.line_regex <;>
    · simp only [OutputPanel.set_regex, hf, hl]
      exact Window.gop_lookup_preserve _ _ _ _ h

theorem set_path_lookup_preserve (s : OPState) (pa f l : Option String)
    (n : String) (v : Nat) (h : s.window.lookupPanel n = some v) :
    (OutputPanel.set_path s pa f l).window.lookupPanel n = some v := by
  cases pa <;>
    · simp only [OutputPanel.set_path]
      exact set_regex_lookup_preserve _ _ _ _ _ h

theorem init_viewId (w : Window) (name : String) (f l p : Option String) :
    (OutputPanel.init w name f l p).panel.viewId = (w.get_output_panel name).1 := by
  simp only [OutputPanel.init, set_path_panel, set_regex_viewId]

theorem init_lookup (w : Window) (name : String) (f l p : Option String) :
    (OutputPanel.init w name f l p).window.lookupPanel name
      = some (OutputPanel.init w name f l p).panel.viewId := by
  rw [init_viewId]
  simp only [OutputPanel.init]
  exact set_path_lookup_preserve _ _ _ _ _ _ (Window.gop_lookup_self w name)

theorem runSetRegex_nil (s : OPState) : runSetRegex s [] = s := rfl

theorem runSetRegex_cons (s : OPState) (c : Option String × Option String)
    (rest : List (Option String × Option String)) :
    runSetRegex s (c :: rest) = runSetRegex (OutputPanel.set_regex s c.1 c.2) rest := rfl

theorem lastSome_cons (d : Option String) (o : Option String) (l : List (Option String)) :
    lastSome d (o :: l) = lastSome (match o with | some v => some v | none => d) l := rfl

theorem runSetRegex_file_attr (calls : List (Option String × Option String)) :
    ∀ s : OPState, (runSetRegex s calls).panel.file_regex
      = lastSome s.panel.file_regex (calls.map Prod.fst) := by
  induction calls with
  | nil => intro s; rfl
  | cons c rest ih =>
      intro s
      rw [runSetRegex_cons, ih, List.map_cons, lastSome_cons, set_regex_file_attr]

theorem runSetRegex_line_attr (calls : List (Option String × Option String)) :
    ∀ s : OPState, (runSetRegex s calls).panel.line_regex
      = lastSome s.panel.line_regex (calls.map Prod.snd) := by
  induction calls with
  | nil => intro s; rfl
  | cons c rest ih =>
      intro s
      rw [runSetRegex_cons, ih, List.map_cons, lastSome_cons, set_regex_line_attr]

theorem set_regex_push_file (s : OPState) (f l : Option String) (r : String)
    (h : (OutputPanel.set_regex s f l).panel.file_regex = some r) :
    (OutputPanel.set_regex s f l).getSetting "result_file_regex" = some r := by
  rw [set_regex_getSetting_file]
  rw [set_regex_file_attr] at h
  cases f with
  | some a => simp at h; simp [h]
  | none => simp at h; simp [h]

theorem set_regex_push_line (s : OPState) (f l : Option String) (r : String)
    (h : (OutputPanel.set_regex s f l).panel.line_regex = some r) :
    (OutputPanel.set_regex s f l).getSetting "result_line_regex" = some r := by
  rw [set_regex_getSetting_line]
  rw [set_regex_line_attr] at h
  cases l with
  | some a => simp at h; simp [h]
  | none => simp at h; simp [h]

theorem runSetRegex_push (calls : List (Option String × Option String)) :
    ∀ s : OPState, calls ≠ [] →
      (∀ r, (runSetRegex s calls).panel.file_regex = some r →
        (runSetRegex s calls).getSetting "result_file_regex" = some r)
    ∧ (∀ r, (runSetRegex s calls).panel.line_regex = some r →
        (runSetRegex s calls).getSetting "result_line_regex" = some r) := by
  induction calls with
  | nil => intro s h; exact absurd rfl h
  | cons c rest ih =>
      intro s _
      cases rest with
      | nil =>
          refine ⟨fun r hr => ?_, fun r hr => ?_⟩
          · exact set_regex_push_file s c.1 c.2 r hr
          · exact set_regex_push_line s c.1 c.2 r hr
      | cons c2 rest2 =>
          rw [runSetRegex_cons]
          exact ih (OutputPanel.set_regex s c.1 c.2) (by simp)

/-! ## Frame lemmas: which settings keys an operation can touch -/

theorem updateViewAt_setSetting_frame (w : Window) (id : Nat) (key val k : String)
    (h : k ≠ key) (i : Nat) :
    (((w.updateViewAt id (fun v => v.setSetting key val)).views i).getSetting k)
      = ((w.views i).getSetting k) :=
  Window.updateViewAt_getSetting w id _ k (fun v => View.getSetting_set_ne v key k val h) i

theorem set_regex_frame (s : OPState) (f l : Option String) (k : String)
    (h2 : k ≠ "result_file_regex") (h3 : k ≠ "result_line_regex") (i : Nat) :
    ((OutputPanel.set_regex s f l).window.views i).getSetting k
      = ((s.window.views i).getSetting k) := by
  cases f <;> cases l <;> cases hf : s.panel.file_regex <;> cases hl : s.panel.line_regex <;>
    · simp only [OutputPanel.set_regex, hf, hl, Window.gop_views]
      repeat first
        | rw [updateViewAt_setSetting_frame _ _ _ _ _ h2]
        | rw [updateViewAt_setSetting_frame _ _ _ _ _ h3]

theorem set_path_frame (s : OPState) (pa f l : Option String) (k : String)
    (h1 : k ≠ "result_base_dir") (h2 : k ≠ "result_file_regex")
    (h3 : k ≠ "result_line_regex") (i : Nat) :
    ((OutputPanel.set_path s pa f l).window.views i).getSetting k
      = ((s.window.views i).getSetting k) := by
  cases pa <;>
    · simp only [OutputPanel.set_path]
      rw [set_regex_frame _ _ _ _ h2 h3]
      try rw [updateViewAt_setSetting_frame _ _ _ _ _ h1]

theorem init_frame (w : Window) (name : String) (f l pa : Option String) (k : String)
    (h1 : k ≠ "result_base_dir") (h2 : k ≠ "result_file_regex")
    (h3 : k ≠ "result_line_regex") (i : Nat) :
    ((OutputPanel.init w name f l pa).window.views i).getSetting k
      = ((w.views i).getSetting k) := by
  simp only [OutputPanel.init]
  rw [set_path_frame _ _ _ _ _ h1 h2 h3]
  rw [Window.gop_views]

theorem write_frame (s : OPState) (t k : String) (i : Nat) :
    ((OutputPanel.write s t).window.views i).getSetting k
      = ((s.window.views i).getSetting k) := by
  simp only [OutputPanel.write]
  exact Window.updateViewAt_getSetting _ _ _ k (fun v => View.getSetting_append v t k) i

theorem clear_frame (s : OPState) (k : String) (i : Nat) :
    ((OutputPanel.clear s).window.views i).getSetting k
      = ((s.window.views i).getSetting k) := by
  simp only [OutputPanel.clear]
  exact Window.updateViewAt_getSetting _ _ _ k (fun v => View.getSetting_clear v k) i

/-! ## Buffer, fetch-log and construction helpers -/

theorem write_buffer (s : OPState) (t : String) :
    (OutputPanel.write s t).buffer = s.buffer ++ t := by
  simp [OutputPanel.write, OPState.buffer, Window.updateViewAt, View.append]

theorem write_line_buffer (s : OPState) (t : String) :
    (OutputPanel.write_line s t).buffer = s.buffer ++ t ++ "\n" := by
  rw [OutputPanel.write_line, write_buffer, String.append_assoc]

theorem clear_buffer (s : OPState) :
    (OutputPanel.clear s).buffer = "" := by
  simp [OutputPanel.clear, OPState.buffer, Window.updateViewAt, View.clear]

theorem init_fetchLog (w : Window) (name : String) (f l pa : Option String) :
    (OutputPanel.init w name f l pa).window.fetchLog = w.fetchLog ++ [name, name] := by
  simp only [OutputPanel.init]
  rw [set_path_fetchLog]
  simp [Window.gop_fetchLog]

theorem init_all_none_views (w : Window) (name : String) :
    (OutputPanel.init w name none none none).window.views = w.views := by
  simp only [OutputPanel.init, OutputPanel.set_path, OutputPanel.set_regex]
  simp [Window.gop_views]

theorem init_getSetting_file (w : Window) (name : String) (fr l pa : Option String) :
    (OutputPanel.init w name fr l pa).getSetting "result_file_regex"
      = match fr with
        | some r => some r
        | none => (OutputPanel.init w name fr l pa).getSetting "result_file_regex" := by
  cases fr with
  | none => rfl
  | some r =>
      simp only [OutputPanel.init]
      rw [set_path_getSetting_file]

theorem init_getSetting_line (w : Window) (name : String) (f lr pa : Option String) :
    (OutputPanel.init w name f lr pa).getSetting "result_line_regex"
      = match lr with
        | some r => some r
        | none => (OutputPanel.init w name f lr pa).getSetting "result_line_regex" := by
  cases lr with
  | none => rfl
  | some r =>
      simp only [OutputPanel.init]
      rw [set_path_getSetting_line]

theorem init_getSetting_base (w : Window) (name : String) (f l : Option String) (pa : String) :
    (OutputPanel.init w name f l (some pa)).getSetting "result_base_dir" = some pa := by
  simp only [OutputPanel.init]
  rw [set_path_getSetting_base]

theorem nodupB_iff (l : List String) : nodupB l = true ↔ l.Nodup := by
  induction l with
  | nil => simp [nodupB]
  | cons a as ih => simp [nodupB, List.nodup_cons, ih]

/-! ## Scope-taxonomy evaluation lemmas -/

theorem splitOnNewline_no_nl (l : List Char) (h : Char.ofNat 10 ∉ l) :
    splitOnNewline l = [l] := by
  induction l with
  | nil => rfl
  | cons c cs ih =>
      have hc : ¬(c = Char.ofNat 10) := fun hcc => h (hcc ▸ List.mem_cons_self c cs)
      have h2 : Char.ofNat 10 ∉ cs := fun hm => h (List.mem_cons_of_mem c hm)
      have hnl : (Char.ofNat 10 : Char) = (⟨10, by decide⟩ : Char) := rfl
      simp only [splitOnNewline, ih h2]
      rw [if_neg (by simpa using hc)]

theorem splitOnNewline_append_nl (l t : List Char) (h : Char.ofNat 10 ∉ l) :
    splitOnNewline (l ++ Char.ofNat 10 :: t) = l :: splitOnNewline t := by
  induction l with
  | nil => simp [splitOnNewline]
  | cons c cs ih =>
      have hc : ¬(c = Char.ofNat 10) := fun hcc => h (hcc ▸ List.mem_cons_self c cs)
      have h2 : Char.ofNat 10 ∉ cs := fun hm => h (List.mem_cons_of_mem c hm)
      simp only [List.cons_append, splitOnNewline]
      rw [if_neg (by simpa using hc),
        show cs.append (Char.ofNat 10 :: t) = cs ++ Char.ofNat 10 :: t from rfl, ih h2]

theorem splitOnNewline_joinNl (ls : List (List Char))
    (h : ∀ l ∈ ls, Char.ofNat 10 ∉ l) (hne : ls ≠ []) :
    splitOnNewline (joinNl ls) = ls := by
  induction ls with
  | nil => exact absurd rfl hne
  | cons l rest ih =>
      cases rest with
      | nil => exact splitOnNewline_no_nl l (h l (List.mem_cons_self l []))
      | cons l2 rest2 =>
          have hl : Char.ofNat 10 ∉ l := h l (List.mem_cons_self l _)
          have hrest : ∀ x ∈ l2 :: rest2, Char.ofNat 10 ∉ x :=
            fun x hx => h x (List.mem_cons_of_mem l hx)
          show splitOnNewline (l ++ Char.ofNat 10 :: joinNl (l2 :: rest2)) = _
          rw [splitOnNewline_append_nl l _ hl, ih hrest (by simp)]

set_option maxRecDepth 8000 in
theorem dataLines_no_nl : ∀ l ∈ dataLines.map String.data, Char.ofNat 10 ∉ l := by decide

set_option maxRecDepth 8000 in
theorem splitOnNewline_DATA :
    splitOnNewline DATA.data = dataLines.map String.data := by
  rw [show DATA.data = joinNl (dataLines.map String.data) from rfl]
  exact splitOnNewline_joinNl _ dataLines_no_nl (by decide)

set_option maxRecDepth 8000 in
set_option maxHeartbeats 2000000 in
theorem leafPaths_eq : leafPaths = pathsLit := by
  rw [show leafPaths
      = (leafStacks [] (parseScopeLines DATA)).map dotJoin from rfl]
  rw [show parseScopeLines DATA
      = (splitOnNewline DATA.data).filterMap (fun l =>
          let t := trimSpaces l
          if t = [] then none else some (indentDepth l, String.mk t)) from rfl]
  rw [splitOnNewline_DATA]
  decide

set_option maxRecDepth 8000 in
set_option maxHeartbeats 2000000 in
theorem scopeLabels_valid : scopeLabels.all validLabel = true := by
  rw [show scopeLabels = (parseScopeLines DATA).map Prod.snd from rfl]
  rw [show parseScopeLines DATA
      = (splitOnNewline DATA.data).filterMap (fun l =>
          let t := trimSpaces l
          if t = [] then none else some (indentDepth l, String.mk t)) from rfl]
  rw [splitOnNewline_DATA]
  decide

set_option maxRecDepth 8000 in
set_option maxHeartbeats 2000000 in
theorem pathsLit_nodup : nodupB pathsLit = true := by decide

/-! ## Claim theorems -/

/-- Claim C1: over any non-empty sequence of `set_regex` calls, the stored
`file_regex` / `line_regex` attribute after each call is the last non-omitted
value supplied (defaulting to the prior attribute), and whenever the attribute
is present the host settings key `result_file_regex` / `result_line_regex`
holds exactly that value; `set_path` delegates its regex handling to
`set_regex` unchanged. -/
theorem claim_C1_set_regex_last_write_wins (s : OPState)
    (calls : List (Option String × Option String)) (h : calls ≠ []) :
    (runSetRegex s calls).panel.file_regex = lastSome s.panel.file_regex (calls.map Prod.fst)
  ∧ (runSetRegex s calls).panel.line_regex = lastSome s.panel.line_regex (calls.map Prod.snd)
  ∧ (∀ r, (runSetRegex s calls).panel.file_regex = some r →
      (runSetRegex s calls).getSetting "result_file_regex" = some r)
  ∧ (∀ r, (runSetRegex s calls).panel.line_regex = some r →
      (runSetRegex s calls).getSetting "result_line_regex" = some r)
  ∧ (∀ pa f l, (OutputPanel.set_path s pa f l).panel = (OutputPanel.set_regex s f l).panel
      ∧ (OutputPanel.set_path s pa f l).getSetting "result_file_regex"
          = (OutputPanel.set_regex s f l).getSetting "result_file_regex"
      ∧ (OutputPanel.set_path s pa f l).getSetting "result_line_regex"
          = (OutputPanel.set_regex s f l).getSetting "result_line_regex") := by
  obtain ⟨hp1, hp2⟩ := runSetRegex_push calls s h
  refine ⟨runSetRegex_file_attr calls s, runSetRegex_line_attr calls s, hp1, hp2, ?_⟩
  intro pa f l
  refine ⟨set_path_panel s pa f l, ?_, ?_⟩
  · rw [set_path_getSetting_file, set_regex_getSetting_file]
  · rw [set_path_getSetting_line, set_regex_getSetting_line]

/-- Witness for C1 at a concrete state and call sequence. -/
theorem claim_C1_witness :
    sampleCalls ≠ []
  ∧ ((runSetRegex sampleState sampleCalls).panel.file_regex
        = lastSome sampleState.panel.file_regex (sampleCalls.map Prod.fst)
    ∧ (runSetRegex sampleState sampleCalls).panel.line_regex
        = lastSome sampleState.panel.line_regex (sampleCalls.map Prod.snd)
    ∧ (∀ r, (runSetRegex sampleState sampleCalls).panel.file_regex = some r →
        (runSetRegex sampleState sampleCalls).getSetting "result_file_regex" = some r)
    ∧ (∀ r, (runSetRegex sampleState sampleCalls).panel.line_regex = some r →
        (runSetRegex sampleState sampleCalls).getSetting "result_line_regex" = some r)
    ∧ (∀ pa f l,
        (OutputPanel.set_path sampleState pa f l).panel
            = (OutputPanel.set_regex sampleState f l).panel
        ∧ (OutputPanel.set_path sampleState pa f l).getSetting "result_file_regex"
            = (OutputPanel.set_regex sampleState f l).getSetting "result_file_regex"
        ∧ (OutputPanel.set_path sampleState pa f l).getSetting "result_line_regex"
            = (OutputPanel.set_regex sampleState f l).getSetting "result_line_regex")) :=
  ⟨by decide, claim_C1_set_regex_last_write_wins sampleState sampleCalls (by decide)⟩

/-- Claim C2: three-way optional-argument semantics — an omitted (`none`)
`path` leaves `result_base_dir` untouched, an explicit value (the empty string
included) overwrites it, and the regex attributes likewise change only when
the corresponding argument is supplied. -/
theorem claim_C2_three_way_setters (s : OPState) (f l : Option String) :
    (OutputPanel.set_path s (some "") f l).getSetting "result_base_dir" = some ""
  ∧ (OutputPanel.set_path s none f l).getSetting "result_base_dir"
      = s.getSetting "result_base_dir"
  ∧ (∀ pa, (OutputPanel.set_path s (some pa) f l).getSetting "result_base_dir" = some pa)
  ∧ (∀ r, (OutputPanel.set_regex s (some r) l).panel.file_regex = some r)
  ∧ (OutputPanel.set_regex s none l).panel.file_regex = s.panel.file_regex
  ∧ (∀ r, (OutputPanel.set_regex s f (some r)).panel.line_regex = some r)
  ∧ (OutputPanel.set_regex s f none).panel.line_regex = s.panel.line_regex := by
  refine ⟨?_, ?_, fun pa => ?_, fun r => ?_, ?_, fun r => ?_, ?_⟩
  · rw [set_path_getSetting_base]
  · rw [set_path_getSetting_base]
  · rw [set_path_getSetting_base]
  · rw [set_regex_file_attr]
  · rw [set_regex_file_attr]
  · rw [set_regex_line_attr]
  · rw [set_regex_line_attr]

/-- Claim C3: `write` appends exactly its text with no trailing newline,
`write_line` appends the text plus one newline; writing `"a"` then `"b"`
extends the buffer by `"ab"`, and `write_line` of `"a"` then `"b"` extends it
by the text `a`, newline, `b`, newline. -/
theorem claim_C3_write_semantics (s : OPState) (t : String) :
    (OutputPanel.write s t).buffer = s.buffer ++ t
  ∧ (OutputPanel.write_line s t).buffer = s.buffer ++ t ++ "\n"
  ∧ (OutputPanel.write (OutputPanel.write s "a") "b").buffer = s.buffer ++ "ab"
  ∧ (OutputPanel.write_line (OutputPanel.write_line s "a") "b").buffer
      = s.buffer ++ "a\nb\n" := by
  have hab : ("a" : String) ++ "b" = "ab" := by decide
  have hanbn : (("a" : String) ++ "\n") ++ ("b" ++ "\n") = "a\nb\n" := by decide
  refine ⟨write_buffer s t, write_line_buffer s t, ?_, ?_⟩
  · rw [write_buffer, write_buffer, String.append_assoc, hab]
  · rw [OutputPanel.write_line, OutputPanel.write_line, write_buffer, write_buffer,
      String.append_assoc, hanbn]

/-- Claim C4: after any sequence of `write` / `write_line` calls, a single
`clear()` leaves the panel buffer empty. -/
theorem claim_C4_clear_empties (s : OPState) (ops : List (Bool × String)) :
    (OutputPanel.clear s).buffer = ""
  ∧ (OutputPanel.clear (runWriteOps s ops)).buffer = "" :=
  ⟨clear_buffer s, clear_buffer _⟩

/-- Claim C5: every `set_regex` call ends by re-invoking the host's
`get_output_panel` with the panel's name, unconditionally (also for omitted
arguments); `set_path` inherits this, and construction fetches the panel
twice — once directly and once through `set_regex`. -/
theorem claim_C5_unconditional_refetch (s : OPState) (f l pa : Option String) :
    (OutputPanel.set_regex s f l).window.fetchLog
      = s.window.fetchLog ++ [s.panel.panel_name]
  ∧ (OutputPanel.set_path s pa f l).window.fetchLog
      = s.window.fetchLog ++ [s.panel.panel_name]
  ∧ (∀ w name f2 l2 p2, (OutputPanel.init w name f2 l2 p2).window.fetchLog
      = w.fetchLog ++ [name, name]) :=
  ⟨set_regex_fetchLog s f l, set_path_fetchLog s pa f l,
   fun w name f2 l2 p2 => init_fetchLog w name f2 l2 p2⟩

/-- Claim C6: construction goes through the window's idempotent get-or-create
panel operation — two constructions with the same panel name on the same
window yield the same underlying view — and initializes the path/regex
settings exactly for the arguments supplied (a fully-omitted construction
writes no view at all); the model is total, so no error can be raised. -/
theorem claim_C6_construct_get_or_create (w : Window) (name : String)
    (f1 l1 p1 f2 l2 p2 : Option String) :
    (OutputPanel.init (OutputPanel.init w name f1 l1 p1).window name f2 l2 p2).panel.viewId
      = (OutputPanel.init w name f1 l1 p1).panel.viewId
  ∧ (∀ r lr pa, (OutputPanel.init w name (some r) lr pa).getSetting "result_file_regex"
      = some r)
  ∧ (∀ fr r pa, (OutputPanel.init w name fr (some r) pa).getSetting "result_line_regex"
      = some r)
  ∧ (∀ fr lr r, (OutputPanel.init w name fr lr (some r)).getSetting "result_base_dir"
      = some r)
  ∧ (OutputPanel.init w name none none none).window.views = w.views := by
  refine ⟨?_, fun r lr pa => ?_, fun fr r pa => ?_, fun fr lr r => ?_,
    init_all_none_views w name⟩
  · rw [init_viewId]
    exact Window.gop_fst_of_lookup _ _ _ (init_lookup w name f1 l1 p1)
  · exact init_getSetting_file w name (some r) lr pa
  · exact init_getSetting_line w name fr (some r) pa
  · exact init_getSetting_base w name fr lr r

/-- Claim C7: `show()` and `hide()` dispatch the host `show_panel` /
`hide_panel` commands with the composite panel name `output.<panel_name>`,
and change nothing else: views, panels, id counter, fetch log and the panel
object itself are untouched. -/
theorem claim_C7_show_hide_dispatch (s : OPState) :
    (OutputPanel.showPanel s).window.commandLog
      = s.window.commandLog ++ [("show_panel", "output." ++ s.panel.panel_name)]
  ∧ (OutputPanel.hidePanel s).window.commandLog
      = s.window.commandLog ++ [("hide_panel", "output." ++ s.panel.panel_name)]
  ∧ (OutputPanel.showPanel s).window.views = s.window.views
  ∧ (OutputPanel.showPanel s).window.panels = s.window.panels
  ∧ (OutputPanel.showPanel s).window.nextId = s.window.nextId
  ∧ (OutputPanel.showPanel s).window.fetchLog = s.window.fetchLog
  ∧ (OutputPanel.showPanel s).panel = s.panel
  ∧ (OutputPanel.hidePanel s).window.views = s.window.views
  ∧ (OutputPanel.hidePanel s).window.panels = s.window.panels
  ∧ (OutputPanel.hidePanel s).window.nextId = s.window.nextId
  ∧ (OutputPanel.hidePanel s).window.fetchLog = s.window.fetchLog
  ∧ (OutputPanel.hidePanel s).panel = s.panel :=
  ⟨rfl, rfl, rfl, rfl, rfl, rfl, rfl, rfl, rfl, rfl, rfl, rfl⟩

/-- Claim C8: across all panel operations, any settings key other than
`result_base_dir`, `result_file_regex` and `result_line_regex` is left
unchanged in every view of the window. -/
theorem claim_C8_settings_frame (s : OPState) (k : String)
    (h1 : k ≠ "result_base_dir") (h2 : k ≠ "result_file_regex")
    (h3 : k ≠ "result_line_regex") :
    (∀ f l i, ((OutputPanel.set_regex s f l).window.views i).getSetting k
        = ((s.window.views i).getSetting k))
  ∧ (∀ pa f l i, ((OutputPanel.set_path s pa f l).window.views i).getSetting k
        = ((s.window.views i).getSetting k))
  ∧ (∀ w name f l pa i, ((OutputPanel.init w name f l pa).window.views i).getSetting k
        = ((w.views i).getSetting k))
  ∧ (∀ t i, ((OutputPanel.write s t).window.views i).getSetting k
        = ((s.window.views i).getSetting k))
  ∧ (∀ t i, ((OutputPanel.write_line s t).window.views i).getSetting k
        = ((s.window.views i).getSetting k))
  ∧ (∀ i, ((OutputPanel.clear s).window.views i).getSetting k
        = ((s.window.views i).getSetting k))
  ∧ (∀ i, ((OutputPanel.showPanel s).window.views i).getSetting k
        = ((s.window.views i).getSetting k))
  ∧ (∀ i, ((OutputPanel.hidePanel s).window.views i).getSetting k
        = ((s.window.views i).getSetting k)) :=
  ⟨fun f l i => set_regex_frame s f l k h2 h3 i,
   fun pa f l i => set_path_frame s pa f l k h1 h2 h3 i,
   fun w name f l pa i => init_frame w name f l pa k h1 h2 h3 i,
   fun t i => write_frame s t k i,
   fun t i => write_frame s (t ++ "\n") k i,
   fun i => clear_frame s k i,
   fun _ => rfl, fun _ => rfl⟩

/-- Witness for C8 at a concrete state and a concrete unrelated key. -/
theorem claim_C8_witness :
    (("word_wrap" : String) ≠ "result_base_dir"
      ∧ ("word_wrap" : String) ≠ "result_file_regex"
      ∧ ("word_wrap" : String) ≠ "result_line_regex")
  ∧ ((∀ f l i, ((OutputPanel.set_regex sampleState f l).window.views i).getSetting "word_wrap"
        = ((sampleState.window.views i).getSetting "word_wrap"))
    ∧ (∀ pa f l i, ((OutputPanel.set_path sampleState pa f l).window.views i).getSetting "word_wrap"
        = ((sampleState.window.views i).getSetting "word_wrap"))
    ∧ (∀ w name f l pa i, ((OutputPanel.init w name f l pa).window.views i).getSetting "word_wrap"
        = ((w.views i).getSetting "word_wrap"))
    ∧ (∀ t i, ((OutputPanel.write sampleState t).window.views i).getSetting "word_wrap"
        = ((sampleState.window.views i).getSetting "word_wrap"))
    ∧ (∀ t i, ((OutputPanel.write_line sampleState t).window.views i).getSetting "word_wrap"
        = ((sampleState.window.views i).getSetting "word_wrap"))
    ∧ (∀ i, ((OutputPanel.clear sampleState).window.views i).getSetting "word_wrap"
        = ((sampleState.window.views i).getSetting "word_wrap"))
    ∧ (∀ i, ((OutputPanel.showPanel sampleState).window.views i).getSetting "word_wrap"
        = ((sampleState.window.views i).getSetting "word_wrap"))
    ∧ (∀ i, ((OutputPanel.hidePanel sampleState).window.views i).getSetting "word_wrap"
        = ((sampleState.window.views i).getSetting "word_wrap"))) :=
  ⟨⟨by decide, by decide, by decide⟩,
   claim_C8_settings_frame sampleState "word_wrap" (by decide) (by decide) (by decide)⟩

/-- Claim C10: construction invokes `get_output_panel` exactly twice with the
panel's name — once in the constructor and once through `set_regex` — for any
arguments; with all three arguments omitted no view (hence no settings key)
is written at all. -/
theorem claim_C10_construct_fetch_twice (w : Window) (name : String)
    (f l pa : Option String) :
    (OutputPanel.init w name f l pa).window.fetchLog = w.fetchLog ++ [name, name]
  ∧ (OutputPanel.init w name none none none).window.views = w.views :=
  ⟨init_fetchLog w name f l pa, init_all_none_views w name⟩

/-- Claim C9: parsing the scope taxonomy `DATA` by indentation and flattening
it to dot-joined root-to-leaf paths yields no duplicate full path, and every
node label consists only of lowercase letters and hyphens. -/
theorem claim_C9_taxonomy_paths :
    leafPaths.Nodup ∧ scopeLabels.all validLabel = true :=
  ⟨(nodupB_iff leafPaths).mp (leafPaths_eq ▸ pathsLit_nodup), scopeLabels_valid⟩
